import Mathlib

/-!
Verification model of the `Vector<T>` container in `src/VVector.h`.

The development has two layers.

1. A value-state model (`Vec`): the observable state of a container is the
   list of live elements (the constructed prefix `[0, size_)` of the block,
   so `size_` is the length of that list), the `capacity_` field, and
   whether the `vector_` pointer is null.  Each success path of a member
   function is transcribed as a pure function on this state.  A member
   function that mutates an argument passed by reference is transcribed as
   a function returning the updated state of that argument as well.

2. An object-lifetime trace model (`Event`, `runFrom`): the failure paths
   of the fallible operations are transcribed as the exact sequence of
   construct/destroy events they perform on the slots of one memory block,
   including the internal cleanup mandated for the standard library
   helpers (std::uninitialized_move, std::uninitialized_fill and
   std::uninitialized_value_construct_n destroy the objects they
   constructed before rethrowing).  A trace is replayed against the set of
   live slots; replay fails (`none`) exactly when a destructor runs on a
   slot that is not live (never constructed, construction threw, or
   already destroyed) or an object is constructed on top of a live slot.

Allocation is modelled by its observable effect on the null-ness of the
pointer: `std::allocator<T>::allocate(n)` forwards to operator new, which
returns a non-null pointer for every requested count, including n = 0.
-/

/-- Value state of `Vector<T>`: `data` is the constructed prefix
`[0, size_)` of the block (hence `size_ = data.length`), `capacity` is the
`capacity_` field, and `isNull` records whether `vector_ == nullptr`. -/
structure Vec (α : Type) where
  data : List α
  capacity : Nat
  isNull : Bool
deriving DecidableEq

/-- Well-formedness: the constructed prefix fits in the block. -/
def Vec.Wf (v : Vec α) : Prop := v.data.length ≤ v.capacity

/-- `Size()`: returns `size_`. -/
def Vec.Size (v : Vec α) : Nat := v.data.length

/-- `Capacity()`: returns `capacity_`. -/
def Vec.Capacity (v : Vec α) : Nat := v.capacity

/-- `Empty()`: returns `size_ == 0`. -/
def Vec.Empty (v : Vec α) : Bool := v.Size == 0

/-- Default constructor `Vector()`: `vector_(nullptr), size_(0), capacity_(0)`. -/
def Vec.mkDefault : Vec α := ⟨[], 0, true⟩

/-- `Vector(std::size_t size, const T& value)`: sets `size_ = capacity_ = size`,
calls `AllocateMemory(size)` unconditionally (so the pointer is non-null even
for `size == 0`, since operator new never returns null), and copy-constructs
`size` copies of `value`.  Success path; the failure path destroys the built
prefix, deallocates and rethrows, so the object never exists. -/
def Vec.mkSizedValue (n : Nat) (x : α) : Vec α := ⟨List.replicate n x, n, false⟩

/-- Range constructor `Vector(Iterator first, Iterator last)` (and the
initializer-list constructor, which delegates to it): `size_ = capacity_ =`
the distance, allocates unconditionally, copy-constructs each element in
order.  The source sequence is the list argument. -/
def Vec.mkFromList (l : List α) : Vec α := ⟨l, l.length, false⟩

/-- Copy constructor `Vector(const Vector& other)`, success path: allocates a
block of `other.capacity_` slots (non-null even when that is 0), copies the
`other.size_` elements in index order, then sets `size_` and `capacity_` to
those of `other`.  `other` is taken by const reference and not modified. -/
def Vec.copy (v : Vec α) : Vec α := ⟨v.data, v.capacity, false⟩

/-- Move constructor `Vector(Vector&& other) noexcept`: the new object takes
`vector_`, `size_`, `capacity_` verbatim; `other` is left with
`vector_ = nullptr`, `size_ = 0`, `capacity_ = 0`.  Only field transfers:
no allocation and no per-element operation appears in the body, and it is
declared noexcept.  Returns (constructed object, state of `other` after). -/
def Vec.moveCtor (v : Vec α) : Vec α × Vec α :=
  (⟨v.data, v.capacity, v.isNull⟩, ⟨[], 0, true⟩)

/-- Move assignment `operator=(Vector&& other) noexcept`, for distinct
objects (self-assignment is a guarded no-op): destroys and deallocates the
current contents, takes the three fields of `other`, zeroes `other`.
Returns (state of the target after, state of `other` after). -/
def Vec.moveAssign (_target other : Vec α) : Vec α × Vec α :=
  (⟨other.data, other.capacity, other.isNull⟩, ⟨[], 0, true⟩)

/-- Checked access failure kind: the code throws `std::out_of_range`. -/
inductive VError
  | outOfRange
deriving DecidableEq

/-- `At(index)`: throws `std::out_of_range` when `index >= size_`, otherwise
returns the element at `index`.  It is a const-qualified observer (also
offered as a non-const overload returning a reference); neither overload
writes any field or element, so the state is untouched in every case. -/
def Vec.At (v : Vec α) (i : Nat) : Except VError α :=
  if h : i ≥ v.Size then .error .outOfRange
  else .ok (v.data.get ⟨i, Nat.lt_of_not_le h⟩)

/-- `PushBack`, success path.  Both overloads (`ConstReference` and
`ValueType&&`) have the same effect on the value state: when
`size_ == capacity_` a fresh block of `capacity_ == 0 ? 1 : 2 * capacity_`
slots is allocated, the old elements are moved over, the new element is
constructed at the end, the old block is destroyed and released; otherwise
the new element is constructed in the next free slot and `size_` is
incremented. -/
def Vec.PushBack (v : Vec α) (x : α) : Vec α :=
  if v.Size = v.capacity then
    ⟨v.data ++ [x], if v.capacity = 0 then 1 else 2 * v.capacity, false⟩
  else
    ⟨v.data ++ [x], v.capacity, v.isNull⟩

/-- `PopBack()`: destroys the last element and decrements `size_` when
`size_ > 0`; no-op otherwise. -/
def Vec.PopBack (v : Vec α) : Vec α := { v with data := v.data.dropLast }

/-- `Clear()`: destroys the elements `[0, size_)` and sets `size_ = 0`;
`capacity_` and the block are kept. -/
def Vec.Clear (v : Vec α) : Vec α := { v with data := [] }

/-- `Reserve(new_capacity)`: when `new_capacity > capacity_`, reallocates to
exactly `new_capacity` via `Reallocate` (fresh block, move elements over,
destroy and release the old block); otherwise no-op. -/
def Vec.Reserve (v : Vec α) (n : Nat) : Vec α :=
  if n > v.capacity then ⟨v.data, n, false⟩ else v

/-- `ShrinkToFit()`: when `size_ < capacity_`, calls `Reallocate(size_)`,
which allocates a block of `size_` slots — non-null even when `size_ == 0`,
since allocate forwards to operator new — moves the elements over, destroys
and releases the old block, and sets `capacity_ = size_`; otherwise no-op. -/
def Vec.ShrinkToFit (v : Vec α) : Vec α :=
  if v.Size < v.capacity then ⟨v.data, v.Size, false⟩ else v

/-- `Resize(new_size, value)`, success path, transcribing the three branches
of the source: if `new_size > capacity_`, allocate exactly `new_size` slots,
move the old elements, fill the tail with copies of `value`, destroy and
release the old block, set `size_ = capacity_ = new_size`; else if
`new_size > size_`, fill `[size_, new_size)` in place with copies of
`value` and set `size_ = new_size`; else if `new_size < size_`, destroy
`[new_size, size_)` and set `size_ = new_size`; else do nothing. -/
def Vec.ResizeVal (v : Vec α) (n : Nat) (x : α) : Vec α :=
  if n > v.capacity then
    ⟨v.data ++ List.replicate (n - v.Size) x, n, false⟩
  else if n > v.Size then
    { v with data := v.data ++ List.replicate (n - v.Size) x }
  else if n < v.Size then
    { v with data := v.data.take n }
  else v

/-- `Resize(new_size)`, success path: same three branches as
`Resize(new_size, value)` but the new slots are value-constructed
(`std::uninitialized_value_construct_n`), which for the scalar element
types at issue produces the zero value — modelled by `default`
(`default = 0` for `Nat`). -/
def Vec.ResizeDefault [Inhabited α] (v : Vec α) (n : Nat) : Vec α :=
  if n > v.capacity then
    ⟨v.data ++ List.replicate (n - v.Size) (default : α), n, false⟩
  else if n > v.Size then
    { v with data := v.data ++ List.replicate (n - v.Size) (default : α) }
  else if n < v.Size then
    { v with data := v.data.take n }
  else v

/-- Object-lifetime events on the slots of one memory block.
`construct i ok` is an attempt to construct an object in slot `i` that
succeeds when `ok` is true and throws when `ok` is false; `destroy i` is a
destructor call on slot `i`. -/
inductive Event
  | construct (idx : Nat) (ok : Bool)
  | destroy (idx : Nat)
deriving DecidableEq

/-- Remove the first occurrence of `a` from the list. -/
def removeFirst : List Nat → Nat → List Nat
  | [], _ => []
  | x :: xs, a => if x = a then xs else x :: removeFirst xs a

/-- Replay one event against the set of live slots.  `none` marks an
object-lifetime violation: constructing on top of a live slot, or running a
destructor on a slot that holds no live object (never constructed,
construction threw, or already destroyed). -/
def stepEvent : Option (List Nat) → Event → Option (List Nat)
  | none, _ => none
  | some live, .construct i ok =>
      if i ∈ live then none else if ok then some (i :: live) else some live
  | some live, .destroy i =>
      if i ∈ live then some (removeFirst live i) else none

/-- Replay a trace from a set of live slots. -/
def runFrom (s : Option (List Nat)) (tr : List Event) : Option (List Nat) :=
  tr.foldl stepEvent s

/-- `n` successful constructions into slots `lo, lo+1, ...`, in order. -/
def constructsOk : Nat → Nat → List Event
  | _, 0 => []
  | lo, n + 1 => .construct lo true :: constructsOk (lo + 1) n

/-- Destructor calls on slots `lo, lo+1, ...` (`n` of them), in increasing
order, as `std::destroy(first, last)` performs them. -/
def destroysSeq : Nat → Nat → List Event
  | _, 0 => []
  | lo, n + 1 => .destroy lo :: destroysSeq (lo + 1) n

/-- Live-slot list after `constructsOk lo n` starting from `live`:
each construction pushes its slot on the front. -/
def stackRange : Nat → Nat → List Nat → List Nat
  | _, 0, live => live
  | lo, n + 1, live => stackRange (lo + 1) n (lo :: live)

/-- Events of the in-capacity branch of `PushBack` when the construction of
the new trailing element at slot `size_` throws: the construction attempt
fails, and the catch block then runs `std::destroy_at(vector_ + size_)` on
that same slot before rethrowing (src/VVector.h lines 372-380 and 412-420).
The block is the existing block, whose slots `[0, size_)` are live. -/
def pushBackInPlaceFailTrace (size : Nat) : List Event :=
  [.construct size false, .destroy size]

/-- Events on the fresh block in the growth branch of `PushBack`
(`size_ == capacity_`) when the move of the `size_` old elements succeeds
and the construction of the new trailing element throws: the moves
construct slots `[0, size_)` of the new block, the construction at slot
`size_` fails before `new_vector_end` is incremented, and the catch block
runs `std::destroy(new_vector, new_vector_end + 1)`, i.e. destructors on
slots `[0, size_ + 1)`, then deallocates and rethrows (src/VVector.h lines
356-364 and 396-404).  The old block is not touched on this path. -/
def pushBackGrowFailTrace (size : Nat) : List Event :=
  constructsOk 0 size ++ [.construct size false] ++ destroysSeq 0 (size + 1)

/-- Events of the in-place branch (`size_ < new_size <= capacity_`) of
`Resize(new_size, value)` and `Resize(new_size)` when the construction of
slot `k` of the gap throws (`size_ <= k < new_size`):
`std::uninitialized_fill` (resp. `std::uninitialized_value_construct_n`)
constructs slots `[size_, k)`, fails at `k`, and destroys the slots it had
constructed before rethrowing; the catch block then runs
`std::destroy(vector_ + size_, vector_ + new_size)`, i.e. destructors on
all of `[size_, new_size)`, and rethrows (src/VVector.h lines 264-271 and
304-311).  The slots `[0, size_)` of the block are live throughout. -/
def resizeFillFailTrace (size newSize k : Nat) : List Event :=
  constructsOk size (k - size) ++ [.construct k false]
    ++ destroysSeq size (k - size) ++ destroysSeq size (newSize - size)

/-- Events on the fresh block of the copy constructor when the copy
construction of element `k` (`k < other.size_`) throws: elements `[0, k)`
were copied, the copy at slot `k` fails with `size_ == k`, and the catch
block runs `std::destroy(vector_, vector_ + size_)` on exactly `[0, k)`,
then deallocates the block with the correct count `other.capacity_` and
rethrows, so the object is never created and the source is untouched
(src/VVector.h lines 123-137). -/
def copyCtorFailTrace (k : Nat) : List Event :=
  constructsOk 0 k ++ [.construct k false] ++ destroysSeq 0 k

/-! ### Helper lemmas about trace replay -/

theorem runFrom_append (s : Option (List Nat)) (t1 t2 : List Event) :
    runFrom s (t1 ++ t2) = runFrom (runFrom s t1) t2 := by
  simp [runFrom, List.foldl_append]

theorem runFrom_cons (s : Option (List Nat)) (e : Event) (tr : List Event) :
    runFrom s (e :: tr) = runFrom (stepEvent s e) tr := rfl

theorem runFrom_constructsOk (n : Nat) :
    ∀ (lo : Nat) (live : List Nat), (∀ j, j < n → lo + j ∉ live) →
      runFrom (some live) (constructsOk lo n) = some (stackRange lo n live) := by
  induction n with
  | zero => intro lo live _; rfl
  | succ n ih =>
    intro lo live h
    have h0 : lo ∉ live := by simpa using h 0 (Nat.succ_pos n)
    rw [constructsOk, runFrom_cons]
    have hstep : stepEvent (some live) (.construct lo true) = some (lo :: live) := by
      simp [stepEvent, h0]
    rw [hstep, stackRange]
    apply ih
    intro j hj
    simp only [List.mem_cons, not_or]
    refine ⟨by omega, ?_⟩
    have h2 := h (j + 1) (by omega)
    have heq : lo + (j + 1) = lo + 1 + j := by omega
    rwa [heq] at h2

theorem mem_stackRange (n : Nat) :
    ∀ (lo : Nat) (live : List Nat) (a : Nat),
      a ∈ stackRange lo n live ↔ (∃ j, j < n ∧ a = lo + j) ∨ a ∈ live := by
  induction n with
  | zero =>
    intro lo live a
    rw [stackRange]
    simp
  | succ n ih =>
    intro lo live a
    rw [stackRange, ih]
    simp only [List.mem_cons]
    constructor
    · rintro (⟨j, hj, rfl⟩ | rfl | ha)
      · exact Or.inl ⟨j + 1, by omega, by omega⟩
      · exact Or.inl ⟨0, by omega, by omega⟩
      · exact Or.inr ha
    · rintro (⟨j, hj, rfl⟩ | ha)
      · rcases Nat.eq_zero_or_pos j with h0 | hpos
        · subst h0; exact Or.inr (Or.inl (by omega))
        · exact Or.inl ⟨j - 1, by omega, by omega⟩
      · exact Or.inr (Or.inr ha)

theorem removeFirst_stackRange (n : Nat) :
    ∀ (lo : Nat) (live : List Nat) (a : Nat), (∀ j, j < n → a ≠ lo + j) →
      removeFirst (stackRange lo n live) a = stackRange lo n (removeFirst live a) := by
  induction n with
  | zero => intro lo live a _; rfl
  | succ n ih =>
    intro lo live a h
    have hne : ∀ j, j < n → a ≠ lo + 1 + j := by
      intro j hj
      have := h (j + 1) (by omega)
      omega
    have hlo : ¬ (lo = a) := by
      have := h 0 (by omega)
      omega
    rw [stackRange, stackRange, ih (lo + 1) (lo :: live) a hne]
    simp only [removeFirst, if_neg hlo]

theorem runFrom_destroysSeq (n : Nat) :
    ∀ (lo : Nat) (live : List Nat), (∀ j, j < n → lo + j ∉ live) →
      runFrom (some (stackRange lo n live)) (destroysSeq lo n) = some live := by
  induction n with
  | zero => intro lo live _; rfl
  | succ n ih =>
    intro lo live h
    rw [stackRange, destroysSeq, runFrom_cons]
    have hmem : lo ∈ stackRange (lo + 1) n (lo :: live) := by
      rw [mem_stackRange]
      exact Or.inr (List.mem_cons_self _ _)
    have hne : ∀ j, j < n → lo ≠ lo + 1 + j := by intro j hj; omega
    have hstep : stepEvent (some (stackRange (lo + 1) n (lo :: live))) (.destroy lo)
        = some (stackRange (lo + 1) n live) := by
      simp only [stepEvent, if_pos hmem]
      rw [removeFirst_stackRange n (lo + 1) (lo :: live) lo hne]
      simp [removeFirst]
    rw [hstep]
    apply ih
    intro j hj
    have h2 := h (j + 1) (by omega)
    have heq : lo + (j + 1) = lo + 1 + j := by omega
    rwa [heq] at h2

theorem copyCtorFailTrace_balanced (k : Nat) :
    runFrom (some []) (copyCtorFailTrace k) = some [] := by
  rw [copyCtorFailTrace, runFrom_append, runFrom_append,
    runFrom_constructsOk k 0 [] (by intro j _; simp)]
  have hnotmem : k ∉ stackRange 0 k [] := by
    rw [mem_stackRange]
    rintro (⟨j, hj, hje⟩ | hmem)
    · omega
    · simp at hmem
  have hstep : runFrom (some (stackRange 0 k [])) [Event.construct k false]
      = some (stackRange 0 k []) := by
    simp [runFrom, stepEvent, hnotmem]
  rw [hstep]
  exact runFrom_destroysSeq k 0 [] (by intro j _; simp)

theorem foldl_pushBack_data (xs : List Nat) :
    ∀ v : Vec Nat, (xs.foldl Vec.PushBack v).data = v.data ++ xs := by
  induction xs with
  | nil => intro v; simp
  | cons x xs ih =>
    intro v
    rw [List.foldl_cons, ih]
    have hstep : (v.PushBack x).data = v.data ++ [x] := by
      rw [Vec.PushBack]
      split <;> rfl
    rw [hstep]
    simp

/-! ### Claim theorems -/

/-- C1: for every sequence of `PushBack` calls applied to a
default-constructed container (both overloads have the same success-path
effect, `Vec.PushBack`, on the value state), assuming no allocation or
element-construction failure, afterwards `Size()` equals the number of
pushes and the elements at indices `0..N-1` are the pushed values in push
order; concretely, pushing 1, 2, 3 yields size 3 and elements 1, 2, 3. -/
theorem c1_pushBack_sequence (xs : List Nat) :
    (xs.foldl Vec.PushBack Vec.mkDefault).Size = xs.length ∧
    (xs.foldl Vec.PushBack Vec.mkDefault).data = xs ∧
    (((Vec.mkDefault.PushBack 1).PushBack 2).PushBack 3).Size = 3 ∧
    (((Vec.mkDefault.PushBack 1).PushBack 2).PushBack 3).data = [1, 2, 3] := by
  refine ⟨?_, ?_, rfl, rfl⟩
  · rw [Vec.Size, foldl_pushBack_data]
    simp [Vec.mkDefault]
  · rw [foldl_pushBack_data]
    simp [Vec.mkDefault]

/-- C2, evaluated at the failing inputs: when the construction of the new
trailing element of `PushBack` throws, a destructor runs on a slot whose
construction did not complete — in the in-capacity branch the catch block
calls `std::destroy_at` on the very slot whose constructor threw (here a
container with one live element and spare capacity), and in the growth
branch the catch block destroys `[0, size_ + 1)` of the fresh block, one
slot past the constructed prefix (here a container with
`size_ == capacity_ == 1`).  Replay of either event trace against the live
slots therefore reports a lifetime violation (`none`), contradicting the
claim. -/
theorem c2_pushBack_failure_destroys_unconstructed :
    runFrom (some [0]) (pushBackInPlaceFailTrace 1) = none ∧
    runFrom (some []) (pushBackGrowFailTrace 1) = none := by
  constructor <;> rfl

/-- C3, evaluated at the failing input: a container with `size_ == 1`,
`capacity_ == 3` is resized to 3, the construction of slot 2 throws after
slot 1 was successfully constructed.  `std::uninitialized_fill` (resp.
`std::uninitialized_value_construct_n`) destroys slot 1 itself before
rethrowing, and the catch block then destroys slots 1 and 2 again: slot 1
is destroyed twice and slot 2 is destroyed though never constructed, so the
replay reports a lifetime violation (`none`), contradicting the claim. -/
theorem c3_resize_failure_double_destroy :
    runFrom (some [0]) (resizeFillFailTrace 1 3 2) = none := by rfl

/-- C4: the two `Resize` overloads obey three regimes — for `n` above the
capacity, storage grows to capacity exactly `n`, size becomes `n` and the
new slots hold the fill value (the zero value for the default overload);
for `size < n <= capacity`, only the gap is constructed in place, capacity
and the storage pointer unchanged; for `n` below the size, the suffix is
dropped and capacity is unchanged.  Concretely, from `{7,7,7}` with
capacity 3, `Resize(5, 9)` yields `{7,7,7,9,9}` with capacity 5, and a
subsequent `Resize(2)` yields `{7,7}` with capacity still 5. -/
theorem c4_resize_regimes (v : Vec Nat) (n x : Nat) (hwf : v.Wf) :
    (n > v.Capacity →
      (v.ResizeVal n x).Capacity = n ∧ (v.ResizeVal n x).Size = n ∧
      (v.ResizeVal n x).data = v.data ++ List.replicate (n - v.Size) x ∧
      (v.ResizeDefault n).Capacity = n ∧ (v.ResizeDefault n).Size = n ∧
      (v.ResizeDefault n).data = v.data ++ List.replicate (n - v.Size) 0) ∧
    (v.Size < n → n ≤ v.Capacity →
      (v.ResizeVal n x).Capacity = v.Capacity ∧ (v.ResizeVal n x).isNull = v.isNull ∧
      (v.ResizeVal n x).data = v.data ++ List.replicate (n - v.Size) x ∧
      (v.ResizeDefault n).Capacity = v.Capacity ∧ (v.ResizeDefault n).isNull = v.isNull ∧
      (v.ResizeDefault n).data = v.data ++ List.replicate (n - v.Size) 0) ∧
    (n < v.Size →
      (v.ResizeVal n x).data = v.data.take n ∧ (v.ResizeVal n x).Capacity = v.Capacity ∧
      (v.ResizeDefault n).data = v.data.take n ∧
      (v.ResizeDefault n).Capacity = v.Capacity) ∧
    ((Vec.mkSizedValue 3 7).ResizeVal 5 9).data = [7, 7, 7, 9, 9] ∧
    ((Vec.mkSizedValue 3 7).ResizeVal 5 9).Capacity = 5 ∧
    (((Vec.mkSizedValue 3 7).ResizeVal 5 9).ResizeDefault 2).data = [7, 7] ∧
    (((Vec.mkSizedValue 3 7).ResizeVal 5 9).ResizeDefault 2).Capacity = 5 := by
  have hsc : v.data.length ≤ v.capacity := hwf
  have hS : v.Size = v.data.length := rfl
  have hC : v.Capacity = v.capacity := rfl
  refine ⟨?_, ?_, ?_, rfl, rfl, rfl, rfl⟩
  · intro h
    have hc : v.capacity < n := h
    rw [Vec.ResizeVal, Vec.ResizeDefault, if_pos hc, if_pos hc]
    refine ⟨rfl, ?_, rfl, rfl, ?_, rfl⟩
    · simp only [Vec.Size, List.length_append, List.length_replicate]
      omega
    · simp only [Vec.Size, List.length_append, List.length_replicate]
      omega
  · intro hlt hle
    have hnc : ¬ v.capacity < n := by omega
    rw [Vec.ResizeVal, Vec.ResizeDefault, if_neg hnc, if_neg hnc,
      if_pos hlt, if_pos hlt]
    exact ⟨rfl, rfl, rfl, rfl, rfl, rfl⟩
  · intro h
    have hnc : ¬ v.capacity < n := by omega
    have hns : ¬ v.Size < n := by omega
    rw [Vec.ResizeVal, Vec.ResizeDefault, if_neg hnc, if_neg hnc,
      if_neg hns, if_neg hns, if_pos h]
    exact ⟨rfl, rfl, rfl, rfl⟩

/-- Witness for C4: the growth regime instantiated at the concrete scenario
container `{7,7,7}` with capacity 3 and `n = 5`, and the shrink regime at
`n = 2`. -/
theorem c4_resize_regimes_witness :
    ((Vec.mkSizedValue 3 (7 : Nat)).ResizeVal 5 9).Capacity = 5 ∧
    ((Vec.mkSizedValue 3 (7 : Nat)).ResizeDefault 2).Capacity = 3 := by
  have h1 := c4_resize_regimes (Vec.mkSizedValue 3 (7 : Nat)) 5 9
    (by unfold Vec.Wf; decide)
  have h2 := c4_resize_regimes (Vec.mkSizedValue 3 (7 : Nat)) 2 9
    (by unfold Vec.Wf; decide)
  exact ⟨(h1.1 (by decide)).1, ((h2.2.2.1 (by decide)).2.2.2 : _)⟩

/-- C5: a successful `PushBack` with `size_ == capacity_` sets the capacity
to `max(1, 2 * capacity_)` (the source computes `capacity_ == 0 ? 1 :
2 * capacity_`, which equals that maximum), a `PushBack` with spare
capacity leaves the capacity unchanged, and pushing three elements into a
default-constructed container passes through capacities 1, 2, 4. -/
theorem c5_pushBack_capacity (v : Vec Nat) (x : Nat) :
    (v.Size = v.Capacity → (v.PushBack x).Capacity = max 1 (2 * v.Capacity)) ∧
    (v.Size < v.Capacity → (v.PushBack x).Capacity = v.Capacity) ∧
    (Vec.mkDefault.PushBack 1).Capacity = 1 ∧
    ((Vec.mkDefault.PushBack 1).PushBack 2).Capacity = 2 ∧
    (((Vec.mkDefault.PushBack 1).PushBack 2).PushBack 3).Capacity = 4 := by
  refine ⟨?_, ?_, rfl, rfl, rfl⟩
  · intro h
    simp only [Vec.Size, Vec.Capacity] at h ⊢
    simp only [Vec.PushBack, Vec.Size, if_pos h, Vec.Capacity]
    rcases Nat.eq_zero_or_pos v.capacity with h0 | hpos
    · simp [h0]
    · rw [if_neg (by omega)]
      exact (Nat.max_eq_right (by omega)).symm
  · intro h
    simp only [Vec.Size, Vec.Capacity] at h
    have hne : ¬ v.data.length = v.capacity := by omega
    simp only [Vec.PushBack, Vec.Size, if_neg hne, Vec.Capacity]

/-- Witness for C5: the growth conjunct at a full container of capacity 0
and the no-growth conjunct at a container with one element and capacity 2. -/
theorem c5_pushBack_capacity_witness :
    ((⟨[], 0, true⟩ : Vec Nat).PushBack 5).Capacity = max 1 (2 * 0) ∧
    ((⟨[7], 2, false⟩ : Vec Nat).PushBack 5).Capacity = 2 := by
  constructor
  · exact (c5_pushBack_capacity ⟨[], 0, true⟩ 5).1 (by decide)
  · exact (c5_pushBack_capacity ⟨[7], 2, false⟩ 5).2.1 (by decide)

/-- C6, evaluated at the failing inputs: the invariant
`storage == nullptr iff capacity == 0` is violated by the sized-with-value
constructor with count 0, by the range/list constructor with an empty
range, and by `ShrinkToFit` on a container with size 0 and positive
capacity (reached here by clearing a three-element container): all three
call `allocate(0)`, whose result is non-null, and end with `capacity_ == 0`
while the pointer is not null. -/
theorem c6_null_invariant_violation :
    ((Vec.mkSizedValue 0 (42 : Nat)).Capacity = 0 ∧
      (Vec.mkSizedValue 0 (42 : Nat)).isNull = false) ∧
    ((Vec.mkFromList ([] : List Nat)).Capacity = 0 ∧
      (Vec.mkFromList ([] : List Nat)).isNull = false) ∧
    ((Vec.mkSizedValue 3 (7 : Nat)).Clear.ShrinkToFit.Capacity = 0 ∧
      (Vec.mkSizedValue 3 (7 : Nat)).Clear.ShrinkToFit.isNull = false) := by
  exact ⟨⟨rfl, rfl⟩, ⟨rfl, rfl⟩, ⟨rfl, rfl⟩⟩

/-- C7: the copy constructor produces a container whose capacity equals the
capacity of the source, whose size equals the size of the source, and whose
elements are copies of the source elements in index order (the source,
taken by const reference, is unmodified — `Vec.copy` is a function of the
source state only); and for every failure point `k` of the element copy
loop, the failure trace on the fresh target block — copies of `[0, k)`,
failed copy at `k`, catch-block destruction of `[0, k)` — replays without
any lifetime violation and ends with no live slot in the target block,
after which the block is deallocated and the failure propagates. -/
theorem c7_copy_ctor (v : Vec Nat) :
    (v.copy).Capacity = v.Capacity ∧ (v.copy).Size = v.Size ∧
    (v.copy).data = v.data ∧
    ∀ k : Nat, runFrom (some []) (copyCtorFailTrace k) = some [] :=
  ⟨rfl, rfl, rfl, copyCtorFailTrace_balanced⟩

/-- C8: after move construction or move assignment from `v` (distinct
objects; self-move-assignment is a guarded no-op), the source is left with
size 0, capacity 0 and a null pointer — the valid reusable empty state —
while the destination holds exactly the original elements in order with the
original capacity; both operations are plain field transfers (no element
copy, no allocation) and are declared noexcept. -/
theorem c8_move_semantics (v w : Vec Nat) :
    (v.moveCtor.2.Size = 0 ∧ v.moveCtor.2.Capacity = 0 ∧
      v.moveCtor.2.isNull = true ∧
      v.moveCtor.1.data = v.data ∧ v.moveCtor.1.Capacity = v.Capacity) ∧
    ((w.moveAssign v).2.Size = 0 ∧ (w.moveAssign v).2.Capacity = 0 ∧
      (w.moveAssign v).2.isNull = true ∧
      (w.moveAssign v).1.data = v.data ∧
      (w.moveAssign v).1.Capacity = v.Capacity) :=
  ⟨⟨rfl, rfl, rfl, rfl, rfl⟩, rfl, rfl, rfl, rfl, rfl⟩

/-- C9: checked access `At(i)` signals out-of-range exactly when
`i >= Size()`, returns the element at index `i` when `i < Size()`, and —
being a const observer (the non-const overload likewise writes nothing) —
leaves the container state untouched; in particular `At(10)` on a
three-element container signals out-of-range. -/
theorem c9_at_checked_access (v : Vec Nat) (i : Nat) :
    (v.At i = .error .outOfRange ↔ i ≥ v.Size) ∧
    (∀ h : i < v.Size, v.At i = .ok (v.data.get ⟨i, h⟩)) ∧
    (Vec.mkFromList [1, 2, 3]).At 10 = .error .outOfRange := by
  refine ⟨⟨?_, ?_⟩, ?_, rfl⟩
  · intro he
    by_contra hlt
    rw [Vec.At, dif_neg hlt] at he
    exact Except.noConfusion he
  · intro hge
    rw [Vec.At, dif_pos hge]
  · intro h
    rw [Vec.At, dif_neg (Nat.not_le.mpr h)]

/-- Witness for C9: on the container `{1,2,3}`, index 1 is in range and
`At` returns the element 2. -/
theorem c9_at_checked_access_witness :
    (Vec.mkFromList [1, 2, 3] : Vec Nat).At 1 = .ok 2 :=
  (c9_at_checked_access (Vec.mkFromList [1, 2, 3]) 1).2.1 (by decide)

/-- C10: `Empty()` returns true exactly when `Size() == 0`; in particular a
default-constructed container, a moved-from container, and a cleared
container all report empty, whatever their capacity. -/
theorem c10_empty_iff (v : Vec Nat) :
    (v.Empty = true ↔ v.Size = 0) ∧
    (Vec.mkDefault : Vec Nat).Empty = true ∧
    v.moveCtor.2.Empty = true ∧
    v.Clear.Empty = true := by
  refine ⟨?_, rfl, rfl, rfl⟩
  simp [Vec.Empty]

/-- Witness for C10: a cleared two-element container reports empty. -/
theorem c10_empty_iff_witness :
    (Vec.mkFromList [4, 5] : Vec Nat).Clear.Empty = true :=
  (c10_empty_iff (Vec.mkFromList [4, 5])).2.2.2
